import Mathlib

/-!
# Verification of the Windows console backend (`src/tty/windows.rs`)

A shallow embedding, in Lean 4, of the core of the Windows terminal backend
of the rustyline line editor: the VT escape-sequence decoder, the console
input reader (UTF-16 surrogate reassembly, modifier computation, resize
handling), the bracketed-paste reader, the surrogate-safe chunked UTF-16
writer, the renderer's manual soft-wrap, the raw-mode enable/disable
lifecycle, and the external-printer / async-pipe protocol.

Machine integers (`DWORD`, `WORD`, `u16`) are modelled as `Nat`; console
handles carry no information relevant to the verified properties and are
elided.  Fallible OS calls are driven by explicit fault/oracle parameters so
that every error path of the source is reachable in the model.
-/

namespace Rustyline

instance {e a : Type} [DecidableEq e] [DecidableEq a] : DecidableEq (Except e a) :=
  fun x y =>
    match x, y with
    | .ok u, .ok v =>
      if h : u = v then isTrue (by rw [h]) else isFalse (by intro hc; cases hc; exact h rfl)
    | .error u, .error v =>
      if h : u = v then isTrue (by rw [h]) else isFalse (by intro hc; cases hc; exact h rfl)
    | .ok _, .error _ => isFalse (by intro hc; cases hc)
    | .error _, .ok _ => isFalse (by intro hc; cases hc)

/-- `crate::keys::Modifiers`: a bitset over CTRL, ALT, SHIFT. -/
structure Modifiers where
  ctrl : Bool
  alt : Bool
  shift : Bool
deriving DecidableEq, Repr

namespace Modifiers

def NONE : Modifiers := ⟨false, false, false⟩
def CTRL : Modifiers := ⟨true, false, false⟩
def ALT : Modifiers := ⟨false, true, false⟩
def SHIFT : Modifiers := ⟨false, false, true⟩
def ALT_SHIFT : Modifiers := ⟨false, true, true⟩
def CTRL_SHIFT : Modifiers := ⟨true, false, true⟩
def CTRL_ALT : Modifiers := ⟨true, true, false⟩
def CTRL_ALT_SHIFT : Modifiers := ⟨true, true, true⟩

end Modifiers

/-- `crate::keys::KeyCode` (the variants used by the Windows backend). -/
inductive KeyCode where
  | char (c : Char)
  | left
  | right
  | up
  | down
  | home
  | «end»
  | pageUp
  | pageDown
  | delete
  | insert
  | backspace
  | enter
  | tab
  | backTab
  | esc
  | f (n : Nat)
  | bracketedPasteStart
  | bracketedPasteEnd
  | unknownEscSeq
deriving DecidableEq, Repr

/-- `crate::keys::KeyEvent`: a pair (key code, modifiers). -/
structure KeyEvent where
  code : KeyCode
  mods : Modifiers
deriving DecidableEq, Repr

/-- `tty::Event` (Windows backend): a key press or an external-print message.
`WindowResized` is an error kind, not an `Event` variant, exactly as in the
source. -/
inductive Event where
  | keyPress (k : KeyEvent)
  | externalPrint (s : String)
deriving DecidableEq, Repr

namespace escape

/-! ## The escape-sequence decoder (`mod escape`, `EscapeCodeBuilder`) -/

def XX : Char := '\x00'
def ESC : Char := '\x1b'

def UP : Char := 'A'
def DOWN : Char := 'B'
def RIGHT : Char := 'C'
def LEFT : Char := 'D'
def «END» : Char := 'F'
def HOME : Char := 'H'
def INS : Char := '2'
def DEL : Char := '3'
def PGUP : Char := '5'
def PGDN : Char := '6'

def SHIFT : Char := '2'
def ALT : Char := '3'
def ALT_SHIFT : Char := '4'
def CTRL : Char := '5'
def CTRL_SHIFT : Char := '6'
def CTRL_ALT : Char := '7'
def CTRL_ALT_SHIFT : Char := '8'

/-- `escape::map_escape_meta`.  The source function is total on `'2'..='8'`
and hits `unreachable!()` elsewhere; the `none` result models that panic
(all call sites guard the argument, so it is never produced there). -/
def map_escape_meta (ch : Char) : Option Modifiers :=
  if ch = SHIFT then some Modifiers.SHIFT
  else if ch = ALT then some Modifiers.ALT
  else if ch = ALT_SHIFT then some Modifiers.ALT_SHIFT
  else if ch = CTRL then some Modifiers.CTRL
  else if ch = CTRL_SHIFT then some Modifiers.CTRL_SHIFT
  else if ch = CTRL_ALT then some Modifiers.CTRL_ALT
  else if ch = CTRL_ALT_SHIFT then some Modifiers.CTRL_ALT_SHIFT
  else none

/-- `escape::EscapeCodeBuilder`: a fixed 6-slot character buffer plus its
length.  `esc_seq` always has exactly 6 entries; unused slots hold `XX`. -/
structure EscapeCodeBuilder where
  esc_seq_len : Nat
  esc_seq : List Char
deriving DecidableEq, Repr

namespace EscapeCodeBuilder

def new : EscapeCodeBuilder := ⟨0, [XX, XX, XX, XX, XX, XX]⟩

def is_processing (b : EscapeCodeBuilder) : Bool := decide (b.esc_seq_len > 0)

/-- `self.esc_seq[self.esc_seq_len] = ch; self.esc_seq_len += 1;` -/
def push (b : EscapeCodeBuilder) (ch : Char) : EscapeCodeBuilder :=
  ⟨b.esc_seq_len + 1, b.esc_seq.set b.esc_seq_len ch⟩

/-- The first (`Incomplete`) arm of the `match` in `on_key`: does the or-pattern
over `(self.esc_seq, key)` match, for a `Char ch` key with no modifiers? -/
def incomplete_matches (c0 c1 c2 c3 c4 c5 ch : Char) : Bool :=
  -- [ESC, XX, XX, XX, XX, XX] with '[' | 'O'
  decide (c0 = ESC ∧ c1 = XX ∧ c2 = XX ∧ c3 = XX ∧ c4 = XX ∧ c5 = XX ∧
    (ch = '[' ∨ ch = 'O')) ||
  -- [ESC, '[', XX, XX, XX, XX] with '1' | '2'
  decide (c0 = ESC ∧ c1 = '[' ∧ c2 = XX ∧ c3 = XX ∧ c4 = XX ∧ c5 = XX ∧
    (ch = '1' ∨ ch = '2')) ||
  -- [ESC, '[', XX, XX, XX, XX] with PGUP | PGDN | DEL
  decide (c0 = ESC ∧ c1 = '[' ∧ c2 = XX ∧ c3 = XX ∧ c4 = XX ∧ c5 = XX ∧
    (ch = PGUP ∨ ch = PGDN ∨ ch = DEL)) ||
  -- [ESC, '[', '1', XX, XX, XX] with ';'
  decide (c0 = ESC ∧ c1 = '[' ∧ c2 = '1' ∧ c3 = XX ∧ c4 = XX ∧ c5 = XX ∧ ch = ';') ||
  -- [ESC, '[', '1', ';', XX, XX] with '2'..='8'
  decide (c0 = ESC ∧ c1 = '[' ∧ c2 = '1' ∧ c3 = ';' ∧ c4 = XX ∧ c5 = XX ∧
    '2' ≤ ch ∧ ch ≤ '8') ||
  -- [ESC, '[', '1', XX, XX, XX] with '5' | '7' | '8' | '9'
  decide (c0 = ESC ∧ c1 = '[' ∧ c2 = '1' ∧ c3 = XX ∧ c4 = XX ∧ c5 = XX ∧
    (ch = '5' ∨ ch = '7' ∨ ch = '8' ∨ ch = '9')) ||
  -- [ESC, '[', '2', XX, XX, XX] with '0' | '1' | '3' | '4'
  decide (c0 = ESC ∧ c1 = '[' ∧ c2 = '2' ∧ c3 = XX ∧ c4 = XX ∧ c5 = XX ∧
    (ch = '0' ∨ ch = '1' ∨ ch = '3' ∨ ch = '4')) ||
  -- [ESC, '[', PGUP | PGDN | DEL | INS, XX, XX, XX] with ';'
  decide (c0 = ESC ∧ c1 = '[' ∧ (c2 = PGUP ∨ c2 = PGDN ∨ c2 = DEL ∨ c2 = INS) ∧
    c3 = XX ∧ c4 = XX ∧ c5 = XX ∧ ch = ';') ||
  -- [ESC, '[', PGUP | PGDN | DEL | INS, ';', XX, XX] with '2'..='8'
  decide (c0 = ESC ∧ c1 = '[' ∧ (c2 = PGUP ∨ c2 = PGDN ∨ c2 = DEL ∨ c2 = INS) ∧
    c3 = ';' ∧ c4 = XX ∧ c5 = XX ∧ '2' ≤ ch ∧ ch ≤ '8') ||
  -- [ESC, '[', '1', '5' | '7' | '8' | '9', XX, XX] with ';'
  decide (c0 = ESC ∧ c1 = '[' ∧ c2 = '1' ∧ (c3 = '5' ∨ c3 = '7' ∨ c3 = '8' ∨ c3 = '9') ∧
    c4 = XX ∧ c5 = XX ∧ ch = ';') ||
  -- [ESC, '[', '2', '0' | '1' | '3' | '4', XX, XX] with ';'
  decide (c0 = ESC ∧ c1 = '[' ∧ c2 = '2' ∧ (c3 = '0' ∨ c3 = '1' ∨ c3 = '3' ∨ c3 = '4') ∧
    c4 = XX ∧ c5 = XX ∧ ch = ';') ||
  -- [ESC, '[', '1', '5' | '7' | '8' | '9', ';', XX] with '2'..='8'
  decide (c0 = ESC ∧ c1 = '[' ∧ c2 = '1' ∧ (c3 = '5' ∨ c3 = '7' ∨ c3 = '8' ∨ c3 = '9') ∧
    c4 = ';' ∧ c5 = XX ∧ '2' ≤ ch ∧ ch ≤ '8') ||
  -- [ESC, '[', '2', '0' | '1' | '3' | '4', ';', XX] with '2'..='8'
  decide (c0 = ESC ∧ c1 = '[' ∧ c2 = '2' ∧ (c3 = '0' ∨ c3 = '1' ∨ c3 = '3' ∨ c3 = '4') ∧
    c4 = ';' ∧ c5 = XX ∧ '2' ≤ ch ∧ ch ≤ '8') ||
  -- [ESC, '[', '2', '0', XX, XX] with '0' | '1'
  decide (c0 = ESC ∧ c1 = '[' ∧ c2 = '2' ∧ c3 = '0' ∧ c4 = XX ∧ c5 = XX ∧
    (ch = '0' ∨ ch = '1'))

/-- Maps the final character of `ESC [ ...` / `ESC [ 1 ; m ...` arms to a
key code, as in the source's inner `match ch`. -/
def arrow_code (ch : Char) : Option KeyCode :=
  if ch = UP then some .up
  else if ch = DOWN then some .down
  else if ch = RIGHT then some .right
  else if ch = LEFT then some .left
  else if ch = «END» then some .«end»
  else if ch = HOME then some .home
  else none

/-- `ESC [ x ~` edit-key codes (`DEL`/`INS`/`PGUP`/`PGDN`). -/
def tilde_code (ch : Char) : Option KeyCode :=
  if ch = DEL then some .delete
  else if ch = INS then some .insert
  else if ch = PGUP then some .pageUp
  else if ch = PGDN then some .pageDown
  else none

/-- The extended character set of the `ESC [ 1 ; m X` arm
(arrows, edit keys, `'P'..='S'` for F1..F4, `'p'..='y'` for keypad digits). -/
def meta_code (ch : Char) : Option KeyCode :=
  match arrow_code ch with
  | some k => some k
  | none =>
    match tilde_code ch with
    | some k => some k
    | none =>
      if ch = 'P' then some (.f 1)
      else if ch = 'Q' then some (.f 2)
      else if ch = 'R' then some (.f 3)
      else if ch = 'S' then some (.f 4)
      else if 'p' ≤ ch ∧ ch ≤ 'y' then
        some (.char (Char.ofNat (ch.toNat - 'p'.toNat + '0'.toNat)))
      else none

/-- `ESC [ 1 {5789} ~` / `ESC [ 2 {0134} ~` function-key codes. -/
def fkey_code (x ch : Char) : Option KeyCode :=
  if x = '1' ∧ ch = '5' then some (.f 5)
  else if x = '1' ∧ ch = '7' then some (.f 6)
  else if x = '1' ∧ ch = '8' then some (.f 7)
  else if x = '1' ∧ ch = '9' then some (.f 8)
  else if x = '2' ∧ ch = '0' then some (.f 9)
  else if x = '2' ∧ ch = '1' then some (.f 10)
  else if x = '2' ∧ ch = '3' then some (.f 11)
  else if x = '2' ∧ ch = '4' then some (.f 12)
  else none

/-- The emitting arms of `on_key`'s `match`, in source order, for a buffer
`[c0..c5]` and a `Char ch` key with no modifiers that did NOT match the
`Incomplete` arm.  `none` models the reachable `unreachable!()` panic of the
`\E[...;{2345678}~` arm (e.g. on `ESC [ 1 ; 5 ~`). -/
def emit (c0 c1 c2 c3 c4 c5 ch : Char) : Option KeyEvent :=
  -- \E[... : [ESC, '[', XX, XX, XX, XX] with UP|DOWN|RIGHT|LEFT|END|HOME
  if h : c0 = ESC ∧ c1 = '[' ∧ c2 = XX ∧ c3 = XX ∧ c4 = XX ∧ c5 = XX ∧
      (arrow_code ch).isSome then
    some ⟨(arrow_code ch).get h.2.2.2.2.2.2, Modifiers.NONE⟩
  -- \E[...~ : [ESC, '[', PGUP|PGDN|DEL|INS, XX, XX, XX] with '~'
  else if h : c0 = ESC ∧ c1 = '[' ∧ (tilde_code c2).isSome ∧ c3 = XX ∧ c4 = XX ∧
      c5 = XX ∧ ch = '~' then
    some ⟨(tilde_code c2).get h.2.2.1, Modifiers.NONE⟩
  -- \E[1;{2345678}... : [ESC, '[', '1', ';', meta, XX] with the meta char set
  else if h : c0 = ESC ∧ c1 = '[' ∧ c2 = '1' ∧ c3 = ';' ∧ ('2' ≤ c4 ∧ c4 ≤ '8') ∧
      c5 = XX ∧ (meta_code ch).isSome then
    match map_escape_meta c4 with
    | some m => some ⟨(meta_code ch).get h.2.2.2.2.2.2, m⟩
    | none => none
  -- \EO{PQRS} : [ESC, 'O', XX, XX, XX, XX] with 'P'|'Q'|'R'|'S'
  else if c0 = ESC ∧ c1 = 'O' ∧ c2 = XX ∧ c3 = XX ∧ c4 = XX ∧ c5 = XX ∧
      (ch = 'P' ∨ ch = 'Q' ∨ ch = 'R' ∨ ch = 'S') then
    if ch = 'P' then some ⟨.f 1, Modifiers.NONE⟩
    else if ch = 'Q' then some ⟨.f 2, Modifiers.NONE⟩
    else if ch = 'R' then some ⟨.f 3, Modifiers.NONE⟩
    else some ⟨.f 4, Modifiers.NONE⟩
  -- \E[1{5789}~ or \E[2{0134}~
  else if h : c0 = ESC ∧ c1 = '[' ∧ (fkey_code c2 c3).isSome ∧ c4 = XX ∧ c5 = XX ∧
      ch = '~' then
    some ⟨(fkey_code c2 c3).get h.2.2.1, Modifiers.NONE⟩
  -- \E[1{5789};{2345678}~ or \E[2{0134};{2345678}~
  else if h : c0 = ESC ∧ c1 = '[' ∧ (fkey_code c2 c3).isSome ∧ c4 = ';' ∧
      ('2' ≤ c5 ∧ c5 ≤ '8') ∧ ch = '~' then
    match map_escape_meta c5 with
    | some m => some ⟨(fkey_code c2 c3).get h.2.2.1, m⟩
    | none => none
  -- \E[...;{2345678}~ : [ESC, '[', ch2, ';', meta, XX] with '~'
  else if c0 = ESC ∧ c1 = '[' ∧ c3 = ';' ∧ ('2' ≤ c4 ∧ c4 ≤ '8') ∧ c5 = XX ∧
      ch = '~' then
    match tilde_code c2 with
    | some k =>
      match map_escape_meta c4 with
      | some m => some ⟨k, m⟩
      | none => none
    | none => none  -- unreachable!() in the source: reachable panic
  -- \E[200~
  else if c0 = ESC ∧ c1 = '[' ∧ c2 = '2' ∧ c3 = '0' ∧ c4 = '0' ∧ c5 = XX ∧ ch = '~' then
    some ⟨.bracketedPasteStart, Modifiers.NONE⟩
  -- \E[201~
  else if c0 = ESC ∧ c1 = '[' ∧ c2 = '2' ∧ c3 = '0' ∧ c4 = '1' ∧ c5 = XX ∧ ch = '~' then
    some ⟨.bracketedPasteEnd, Modifiers.NONE⟩
  -- fall-through arms: UnknownEscSeq (buffer untouched)
  else
    some ⟨.unknownEscSeq, Modifiers.NONE⟩

/-- `EscapeCodeBuilder::on_key`.  The outer `Option` models panics
(`unreachable!()`); the inner `Option KeyEvent` is the source's return value
(`None` = more input needed); the builder is the state after the call. -/
def on_key (b : EscapeCodeBuilder) (key : KeyEvent) :
    Option (Option KeyEvent × EscapeCodeBuilder) :=
  if ¬ b.is_processing then
    if key = ⟨.esc, Modifiers.NONE⟩ then some (none, b.push ESC)
    else some (some key, b)
  else
    match b.esc_seq, key with
    | [c0, c1, c2, c3, c4, c5], ⟨.char ch, m⟩ =>
      if m = Modifiers.NONE then
        if incomplete_matches c0 c1 c2 c3 c4 c5 ch then some (none, b.push ch)
        else
          match emit c0 c1 c2 c3 c4 c5 ch with
          | some k => some (some k, b)
          | none => none
      else some (some ⟨.unknownEscSeq, Modifiers.NONE⟩, b)
    | _, _ => some (some ⟨.unknownEscSeq, Modifiers.NONE⟩, b)

/-- Feed a list of keys one by one to the decoder, collecting each call's
return value.  `none` propagates a panic. -/
def feed (b : EscapeCodeBuilder) :
    List KeyEvent → Option (List (Option KeyEvent) × EscapeCodeBuilder)
  | [] => some ([], b)
  | k :: ks =>
    match on_key b k with
    | none => none
    | some (o, b2) =>
      match feed b2 ks with
      | none => none
      | some (os, b3) => some (o :: os, b3)

end EscapeCodeBuilder

/-! ## `escape::read_pasted_text` -/

/-- Rust `str::replace("\r\n", "\n")`: rewrite each (leftmost, non-overlapping)
CRLF pair to a single LF. -/
def replace_crlf : List Char → List Char
  | '\r' :: '\n' :: rest => '\n' :: replace_crlf rest
  | c :: rest => c :: replace_crlf rest
  | [] => []

/-- Rust `str::replace('\r', "\n")`: rewrite every remaining CR to LF. -/
def replace_cr (l : List Char) : List Char :=
  l.map fun c => if c = '\r' then '\n' else c

/-- `escape::read_pasted_text`, with the reader's `next_key` modelled as
popping the next `KeyEvent` from a list (`none` models a reader that blocks
forever because no further key arrives).  Returns the accumulated, normalized
text together with the keys left unconsumed. -/
def read_pasted_text : List KeyEvent → List Char → Option (List Char × List KeyEvent)
  | [], _ => none
  | k :: ks, buffer =>
    if k.code = .bracketedPasteEnd then
      some (replace_cr (replace_crlf buffer), ks)
    else
      match k.code with
      | .char ch =>
        if k.mods = Modifiers.NONE then read_pasted_text ks (buffer ++ [ch])
        else if ch = 'I' ∧ k.mods = Modifiers.CTRL then read_pasted_text ks (buffer ++ ['\t'])
        else if ch = 'M' ∧ k.mods = Modifiers.CTRL then read_pasted_text ks (buffer ++ ['\r'])
        else if ch = 'J' ∧ k.mods = Modifiers.CTRL then read_pasted_text ks (buffer ++ ['\n'])
        else read_pasted_text ks buffer
      | _ => read_pasted_text ks buffer

end escape

/-! ## The renderer's manual soft wrap
(`ConsoleRenderer::wrap_at_eol`, `ConsoleRenderer::calculate_position`)

The iteration over `s.graphemes(true)` and the external width functions
(`super::width` / `UnicodeWidthStr`, crates outside this file) are abstracted:
the input is a list of grapheme clusters, each either the literal `"\n"`
cluster or an opaque cluster carrying its display width.  Both source
functions consume exactly this data; their control flow is translated
verbatim. -/

/-- A grapheme cluster as the renderer sees it: the literal `"\n"`, or any
other cluster together with its display width. -/
inductive Gc where
  | nl
  | cl (w : Nat)
deriving DecidableEq, Repr

namespace ConsoleRenderer

/-- The `for c in s.graphemes(true)` loop of `wrap_at_eol`: `buffer` is the
renderer's paint buffer (as a cluster list; pushed `'\n'` characters appear
as `Gc.nl`), `col` the running column. -/
def wrap_at_eol_loop (cols : Nat) : List Gc → Nat → List Gc → List Gc × Nat
  | [], col, buffer => (buffer, col)
  | .nl :: rest, _, buffer => wrap_at_eol_loop cols rest 0 (buffer ++ [.nl])
  | .cl w :: rest, col, buffer =>
    let col2 := col + w
    if col2 > cols then wrap_at_eol_loop cols rest w (buffer ++ [.nl, .cl w])
    else wrap_at_eol_loop cols rest col2 (buffer ++ [.cl w])

/-- `ConsoleRenderer::wrap_at_eol` (the buffer starts empty here; the source
appends to `self.buffer`, which `wrap_at_eol_loop`'s accumulator models).
Returns the paint buffer contents it appended and the final column. -/
def wrap_at_eol (cols : Nat) (s : List Gc) (col : Nat) : List Gc × Nat :=
  let r := wrap_at_eol_loop cols s col []
  if r.2 = cols then (r.1 ++ [.nl], 0) else r

/-- `crate::layout::Position`. -/
structure Position where
  row : Nat
  col : Nat
deriving DecidableEq, Repr

/-- The grapheme loop of `ConsoleRenderer::calculate_position`. -/
def calculate_position_loop (cols : Nat) : List Gc → Position → Position
  | [], pos => pos
  | .nl :: rest, pos => calculate_position_loop cols rest ⟨pos.row + 1, 0⟩
  | .cl w :: rest, pos =>
    let col2 := pos.col + w
    if col2 > cols then calculate_position_loop cols rest ⟨pos.row + 1, w⟩
    else calculate_position_loop cols rest ⟨pos.row, col2⟩

/-- `ConsoleRenderer::calculate_position`. -/
def calculate_position (cols : Nat) (s : List Gc) (orig : Position) : Position :=
  let pos := calculate_position_loop cols s orig
  if pos.col = cols then ⟨pos.row + 1, 0⟩ else pos

/-- Number of newline clusters in a buffer. -/
def count_nl (l : List Gc) : Nat := (l.filter (· = Gc.nl)).length

end ConsoleRenderer

/-! ## Chunked, surrogate-safe UTF-16 output (`write_all`) -/

def is_high_surrogate (u : Nat) : Bool := decide (0xD800 ≤ u ∧ u < 0xDC00)

def is_low_surrogate (u : Nat) : Bool := decide (0xDC00 ≤ u ∧ u < 0xE000)

/-- One `WriteConsoleW` response from the OS: outright failure, or success
with a reported count of units written. -/
inductive WriteResp where
  | fail
  | ok (written : Nat)
deriving DecidableEq, Repr

inductive WriteErr where
  | osError
  | writeZero
deriving DecidableEq, Repr

/-- The chunk (`slice`) `write_all` hands to `WriteConsoleW` for the current
remaining `data`. -/
def write_slice (data : List Nat) : List Nat :=
  if data.length < 8192 then data
  else if is_high_surrogate (data.getD 8191 0) then data.take 8191
  else data.take 8192

/-- `write_all`.  `oracle i` is the OS response to the `i`-th `WriteConsoleW`
call; `i` is the index of the next call.  Besides the source's result the
model logs, for each call, the slice handed to the OS together with the
remaining data it was cut from. -/
def write_all (oracle : Nat → WriteResp) (i : Nat) (data : List Nat) :
    Except WriteErr Unit × List (List Nat × List Nat) :=
  if h : data = [] then (.ok (), [])
  else
    match oracle i with
    | .fail => (.error .osError, [(write_slice data, data)])
    | .ok written =>
      if hw : written = 0 then (.error .writeZero, [(write_slice data, data)])
      else
        ((write_all oracle (i + 1) (data.drop written)).1,
         (write_slice data, data) :: (write_all oracle (i + 1) (data.drop written)).2)
termination_by data.length
decreasing_by
  have : data.length ≠ 0 := fun hz => h (List.eq_nil_of_length_eq_zero hz)
  have : (data.drop written).length = data.length - written := List.length_drop ..
  omega

/-! ## The console input reader (`read_input`) -/

/-- `wincon::INPUT_RECORD`, restricted to what `read_input` inspects: a
window-buffer-size-change record, a key record (with `bKeyDown`,
`wVirtualKeyCode`, `dwControlKeyState` and the UTF-16 unit of
`uChar.UnicodeChar`), or any other record kind. -/
inductive InputRecord where
  | windowBufferSize
  | key (keyDown : Bool) (vk : Nat) (ctrlState : Nat) (utf16 : Nat)
  | other
deriving DecidableEq, Repr

def RIGHT_ALT_PRESSED : Nat := 0x1
def LEFT_ALT_PRESSED : Nat := 0x2
def RIGHT_CTRL_PRESSED : Nat := 0x4
def LEFT_CTRL_PRESSED : Nat := 0x8
def SHIFT_PRESSED : Nat := 0x10

def VK_BACK : Nat := 0x08
def VK_TAB : Nat := 0x09
def VK_RETURN : Nat := 0x0D
def VK_MENU : Nat := 0x12
def VK_ESCAPE : Nat := 0x1B
def VK_PRIOR : Nat := 0x21
def VK_NEXT : Nat := 0x22
def VK_END : Nat := 0x23
def VK_HOME : Nat := 0x24
def VK_LEFT : Nat := 0x25
def VK_UP : Nat := 0x26
def VK_RIGHT : Nat := 0x27
def VK_DOWN : Nat := 0x28
def VK_INSERT : Nat := 0x2D
def VK_DELETE : Nat := 0x2E
def VK_F1 : Nat := 0x70
def VK_F2 : Nat := 0x71
def VK_F3 : Nat := 0x72
def VK_F4 : Nat := 0x73
def VK_F5 : Nat := 0x74
def VK_F6 : Nat := 0x75
def VK_F7 : Nat := 0x76
def VK_F8 : Nat := 0x77
def VK_F9 : Nat := 0x78
def VK_F10 : Nat := 0x79
def VK_F11 : Nat := 0x7A
def VK_F12 : Nat := 0x7B

/-- The modifier computation of `read_input` (windows.rs lines 217-228):
AltGr (= LEFT_CTRL together with RIGHT_ALT) suppresses CTRL and ALT;
otherwise CTRL/ALT come from either of their bits; SHIFT from its bit. -/
def mods_of_state (st : Nat) : Modifiers :=
  let altGr : Bool :=
    st &&& (LEFT_CTRL_PRESSED ||| RIGHT_ALT_PRESSED) == LEFT_CTRL_PRESSED ||| RIGHT_ALT_PRESSED
  { ctrl := !altGr && (st &&& (LEFT_CTRL_PRESSED ||| RIGHT_CTRL_PRESSED) != 0)
    alt := !altGr && (st &&& (LEFT_ALT_PRESSED ||| RIGHT_ALT_PRESSED) != 0)
    shift := st &&& SHIFT_PRESSED != 0 }

/-- The virtual-key `match` of `read_input`.  `some` is a mapped key code
(with the possibly-updated modifiers, for the Shift-Tab → BackTab case);
`none` is the default arm (fall through to the UTF-16 path). -/
def vk_to_key_code (vk : Nat) (mods : Modifiers) : Option (KeyCode × Modifiers) :=
  if vk = VK_LEFT then some (.left, mods)
  else if vk = VK_RIGHT then some (.right, mods)
  else if vk = VK_UP then some (.up, mods)
  else if vk = VK_DOWN then some (.down, mods)
  else if vk = VK_DELETE then some (.delete, mods)
  else if vk = VK_HOME then some (.home, mods)
  else if vk = VK_END then some (.«end», mods)
  else if vk = VK_PRIOR then some (.pageUp, mods)
  else if vk = VK_NEXT then some (.pageDown, mods)
  else if vk = VK_INSERT then some (.insert, mods)
  else if vk = VK_F1 then some (.f 1, mods)
  else if vk = VK_F2 then some (.f 2, mods)
  else if vk = VK_F3 then some (.f 3, mods)
  else if vk = VK_F4 then some (.f 4, mods)
  else if vk = VK_F5 then some (.f 5, mods)
  else if vk = VK_F6 then some (.f 6, mods)
  else if vk = VK_F7 then some (.f 7, mods)
  else if vk = VK_F8 then some (.f 8, mods)
  else if vk = VK_F9 then some (.f 9, mods)
  else if vk = VK_F10 then some (.f 10, mods)
  else if vk = VK_F11 then some (.f 11, mods)
  else if vk = VK_F12 then some (.f 12, mods)
  else if vk = VK_BACK then some (.backspace, mods)
  else if vk = VK_RETURN then some (.enter, mods)
  else if vk = VK_ESCAPE then some (.esc, mods)
  else if vk = VK_TAB then
    if mods.shift then some (.backTab, { mods with shift := false })
    else some (.tab, mods)
  else none

/-- Rust `char::decode_utf16(Some(u)).next()`: a non-surrogate unit is its own
scalar; any surrogate alone fails to decode (`none`). -/
def decode_utf16_one (u : Nat) : Option Char :=
  if 0xD800 ≤ u ∧ u < 0xE000 then none else some (Char.ofNat u)

/-- Rust `char::decode_utf16([hi, u]).next()` where `hi` is a stashed high
surrogate: succeeds exactly when `u` is a low surrogate. -/
def decode_utf16_pair (hi u : Nat) : Option Char :=
  if 0xDC00 ≤ u ∧ u < 0xE000 then
    some (Char.ofNat (0x10000 + (hi - 0xD800) * 0x400 + (u - 0xDC00)))
  else none

/-- Modelled from the spec: `KeyEvent::new` lives in `crate::keys` (not under
src/); per "decode to a scalar" and the surrogate round-trip scenario, a
decoded scalar becomes `KeyEvent(Char(c), mods)`. -/
def key_event_new (c : Char) (mods : Modifiers) : KeyEvent := ⟨.char c, mods⟩

inductive ReadErr where
  | osError
  /-- `ReadlineError::WindowResized`. -/
  | windowResized
  /-- Modelled from the spec: `ReadlineError::Eof` — both the explicit
  `return Err(Eof)` for an empty decode and the `rc?` conversion of a
  `DecodeUtf16Error` ("Failed decoding yields EOF error"; the `From` impl
  lives in `crate::error`, not under src/). -/
  | eof
  /-- Models `ReadConsoleInputW` blocking forever because no further input
  record ever arrives. -/
  | blocked
  /-- Models the reachable `unreachable!()` panic inside
  `EscapeCodeBuilder::on_key`. -/
  | panicked
deriving DecidableEq, Repr

/-- The per-record step of `read_input` up to the bracketed-paste routing:
the virtual-key `match`, the `utf16 == 0` / `utf16 == 27` checks and the
surrogate accumulation/decoding.  `cont s` means the source's `continue`
(with the surrogate register now `s`). -/
inductive KeyStep where
  | cont (surrogate : Nat)
  | err (e : ReadErr)
  | key (k : KeyEvent)
deriving DecidableEq, Repr

def key_of_record (vk : Nat) (mods : Modifiers) (utf16 surrogate : Nat) : KeyStep :=
  match vk_to_key_code vk mods with
  | some (kc, mods2) => .key ⟨kc, mods2⟩
  | none =>
    if utf16 = 0 then .cont surrogate
    else if utf16 = 27 then .key ⟨.esc, mods⟩
    else if 0xD800 ≤ utf16 ∧ utf16 < 0xDC00 then .cont utf16
    else
      match
        (if surrogate = 0 then decode_utf16_one utf16
         else decode_utf16_pair surrogate utf16) with
      | none => .err .eof
      | some c => .key (key_event_new c mods)

/-- The stand-alone-Escape disambiguation of `read_input`: when the decoder
is idle and a bare Esc key arrived, peek one queued record
(`GetNumberOfConsoleInputEvents` + `PeekConsoleInputA`); the Esc starts a
sequence only if a further record exists and is a key event that is not the
key-up of that Esc key. -/
def esc_processing_check (esc : escape.EscapeCodeBuilder) (key : KeyEvent)
    (rest : List InputRecord) : Bool :=
  if ¬ esc.is_processing ∧ key = ⟨.esc, Modifiers.NONE⟩ then
    if rest.length > 0 then
      match rest.head? with
      | some (.key kd vk2 _ _) => kd != false || vk2 != 0x1b
      | some _ => false
      | none => false
    else false
  else true

/-- The loop of `read_input`.  The console's input queue is the list `recs`;
`ReadConsoleInputW` pops its head, `GetNumberOfConsoleInputEvents` reports its
length and `PeekConsoleInputA` inspects its head without popping.  Returns
the produced key event together with the unconsumed queue. -/
def read_input_loop (max_count : Nat) (ebp : Bool) :
    List InputRecord → Nat → Nat → escape.EscapeCodeBuilder →
    Except ReadErr (KeyEvent × List InputRecord)
  | [], total, _, _ =>
    if total ≥ max_count then .ok (⟨.unknownEscSeq, Modifiers.NONE⟩, [])
    else .error .blocked
  | r :: rest, total, surrogate, esc =>
    if total ≥ max_count then .ok (⟨.unknownEscSeq, Modifiers.NONE⟩, r :: rest)
    else
      match r with
      | .windowBufferSize => .error .windowResized
      | .other => read_input_loop max_count ebp rest (total + 1) surrogate esc
      | .key keyDown vk ctrlState utf16 =>
        if keyDown = false ∧ vk ≠ VK_MENU then
          read_input_loop max_count ebp rest (total + 1) surrogate esc
        else
          match key_of_record vk (mods_of_state ctrlState) utf16 surrogate with
          | .cont surrogate2 =>
            read_input_loop max_count ebp rest (total + 1) surrogate2 esc
          | .err e => .error e
          | .key key =>
            if ebp then
              if esc_processing_check esc key rest then
                match esc.on_key key with
                | none => .error .panicked
                | some (some k, _) => .ok (k, rest)
                | some (none, esc2) =>
                  read_input_loop max_count ebp rest (total + 1) surrogate esc2
              else .ok (key, rest)
            else .ok (key, rest)

/-- `read_input`. -/
def read_input (recs : List InputRecord) (max_count : Nat) (ebp : Bool) :
    Except ReadErr (KeyEvent × List InputRecord) :=
  read_input_loop max_count ebp recs 0 0 .new

/-! ## Raw-mode lifecycle (`Console::enable_raw_mode`,
`ConsoleMode::disable_raw_mode`)

The console's observable state is the pair of mode words plus the shared
raw-mode flag.  Each fallible OS call is driven by a `Faults` field so that
every error path is reachable.  `SetConsoleMode` semantics: on success the
mode word becomes the requested value, on failure it is unchanged. -/

def ENABLE_PROCESSED_INPUT : Nat := 0x1
def ENABLE_LINE_INPUT : Nat := 0x2
def ENABLE_ECHO_INPUT : Nat := 0x4
def ENABLE_WINDOW_INPUT : Nat := 0x8
def ENABLE_INSERT_MODE : Nat := 0x20
def ENABLE_QUICK_EDIT_MODE : Nat := 0x40
def ENABLE_EXTENDED_FLAGS : Nat := 0x80
def ENABLE_VIRTUAL_TERMINAL_INPUT : Nat := 0x200
def ENABLE_WRAP_AT_EOL_OUTPUT : Nat := 0x2
def ENABLE_VIRTUAL_TERMINAL_PROCESSING : Nat := 0x4

/-- `mode & !mask` on a `DWORD`. -/
def clear_bits (m mask : Nat) : Nat := m &&& (0xFFFFFFFF ^^^ mask)

inductive ColorMode where
  | enabled
  | forced
  | disabled
deriving DecidableEq, Repr

/-- The console state touched by the raw-mode lifecycle. -/
structure World where
  conin_mode : Nat
  conout_mode : Nat
  raw_mode : Bool
deriving DecidableEq, Repr

/-- Success/failure of each OS call `enable_raw_mode` makes, in program
order.  The two `SetConsoleMode` calls wrapped in `assert_ne!` panic (rather
than return an error) when they fail; `set_conout_vt_on`'s failure is
tolerated and merely recorded. -/
structure EnableFaults where
  get_conin : Bool
  get_conout : Bool
  set_conout_wrap : Bool
  set_conout_vt_off : Bool
  set_conout_vt_on : Bool
  write_bp_on : Bool
  set_conin : Bool
deriving DecidableEq, Repr

/-- The `ConsoleMode` token (handles elided; the shared flag lives in
`World`). -/
structure ConsoleMode where
  original_conin_mode : Nat
  original_conout_mode : Option Nat
deriving DecidableEq, Repr

inductive EnableOutcome where
  /-- `Ok((ConsoleMode, ()))`; `ansi` is the updated
  `self.ansi_colors_supported`. -/
  | ok (tok : ConsoleMode) (ansi : Bool) (w : World)
  /-- An `Err(..)` return: no token. -/
  | err (ansi : Bool) (w : World)
  /-- An `assert_ne!` failure. -/
  | panicked (ansi : Bool) (w : World)
deriving DecidableEq, Repr

/-- The conout part of `enable_raw_mode` (windows.rs lines 781-819): ensure
WRAP_AT_EOL, detect/toggle VT processing, optionally turn bracketed paste on.
Returns the updated `(ansi_colors_supported, raw-input-mask extra bit,
world)` or an early error/panic. -/
def enable_conout_setup (color_mode : ColorMode) (ebp : Bool) (f : EnableFaults)
    (ansi0 : Bool) (w : World) : EnableOutcome × Bool :=
  -- the `Bool` is whether ENABLE_VIRTUAL_TERMINAL_INPUT must be or-ed into `raw`
  if ¬ f.get_conout then (.err ansi0 w, false)
  else
    let mode0 := w.conout_mode
    -- `if mode & ENABLE_WRAP_AT_EOL_OUTPUT == 0 { ... assert_ne!(SetConsoleMode ..) }`
    let mode1 := if mode0 &&& ENABLE_WRAP_AT_EOL_OUTPUT = 0 then
        mode0 ||| ENABLE_WRAP_AT_EOL_OUTPUT else mode0
    if mode0 &&& ENABLE_WRAP_AT_EOL_OUTPUT = 0 ∧ ¬ f.set_conout_wrap then
      (.panicked ansi0 w, false)
    else
      let w := { w with conout_mode := mode1 }
      let ansi := mode1 &&& ENABLE_VIRTUAL_TERMINAL_PROCESSING != 0
      if ansi then
        if color_mode = .disabled then
          let mode2 := clear_bits mode1 ENABLE_VIRTUAL_TERMINAL_PROCESSING
          if ¬ f.set_conout_vt_off then (.panicked ansi w, false)
          else
            let w := { w with conout_mode := mode2 }
            -- ansi stays true; bracketed paste branch below
            if ansi ∧ ebp then
              if ¬ f.write_bp_on then (.err ansi w, false)
              else (.ok ⟨0, none⟩ ansi w, true)
            else (.ok ⟨0, none⟩ ansi w, false)
        else
          if ansi ∧ ebp then
            if ¬ f.write_bp_on then (.err ansi w, false)
            else (.ok ⟨0, none⟩ ansi w, true)
          else (.ok ⟨0, none⟩ ansi w, false)
      else
        if color_mode ≠ .disabled then
          let mode2 := mode1 ||| ENABLE_VIRTUAL_TERMINAL_PROCESSING
          let ansi2 := f.set_conout_vt_on
          let w := if f.set_conout_vt_on then { w with conout_mode := mode2 } else w
          if ansi2 ∧ ebp then
            if ¬ f.write_bp_on then (.err ansi2 w, false)
            else (.ok ⟨0, none⟩ ansi2 w, true)
          else (.ok ⟨0, none⟩ ansi2 w, false)
        else
          if ansi ∧ ebp then
            if ¬ f.write_bp_on then (.err ansi w, false)
            else (.ok ⟨0, none⟩ ansi w, true)
          else (.ok ⟨0, none⟩ ansi w, false)

/-- `Console::enable_raw_mode`.  The tail (store the raw-mode flag, apply the
new input mode, build the token) is written once per conout branch. -/
def enable_raw_mode (conin_isatty conout_isatty : Bool) (color_mode : ColorMode)
    (ansi0 : Bool) (ebp : Bool) (f : EnableFaults) (w : World) : EnableOutcome :=
  if ¬ conin_isatty then .err ansi0 w
  else if ¬ f.get_conin then .err ansi0 w
  else
    let original_conin_mode := w.conin_mode
    let raw := clear_bits original_conin_mode
      (ENABLE_LINE_INPUT ||| ENABLE_ECHO_INPUT ||| ENABLE_PROCESSED_INPUT)
    let raw := raw ||| ENABLE_EXTENDED_FLAGS ||| ENABLE_INSERT_MODE |||
      ENABLE_QUICK_EDIT_MODE ||| ENABLE_WINDOW_INPUT
    if conout_isatty then
      match enable_conout_setup color_mode ebp f ansi0 w with
      | (.ok _ ansi w2, vtIn) =>
        let raw := if vtIn then raw ||| ENABLE_VIRTUAL_TERMINAL_INPUT else raw
        let w3 := { w2 with raw_mode := true }
        if ¬ f.set_conin then .err ansi w3
        else
          .ok ⟨original_conin_mode, some w.conout_mode⟩ ansi
            { w3 with conin_mode := raw }
      | (.err ansi w2, _) => .err ansi w2
      | (.panicked ansi w2, _) => .panicked ansi w2
    else
      let w3 := { w with raw_mode := true }
      if ¬ f.set_conin then .err ansi0 w3
      else .ok ⟨original_conin_mode, none⟩ ansi0 { w3 with conin_mode := raw }

/-- Success/failure of the OS calls `disable_raw_mode` makes. -/
structure DisableFaults where
  set_conin : Bool
  write_bp_off : Bool
  set_conout : Bool
deriving DecidableEq, Repr

/-- `ConsoleMode::disable_raw_mode`. -/
def disable_raw_mode (tok : ConsoleMode) (f : DisableFaults) (w : World) :
    Except Unit Unit × World :=
  if ¬ f.set_conin then (.error (), w)
  else
    let w := { w with conin_mode := tok.original_conin_mode }
    match tok.original_conout_mode with
    | some original_stdstream_mode =>
      if ¬ f.write_bp_off then (.error (), w)
      else if ¬ f.set_conout then (.error (), w)
      else
        let w := { w with conout_mode := original_stdstream_mode }
        (.ok (), { w with raw_mode := false })
    | none => (.ok (), { w with raw_mode := false })

/-! ## External printer and async pipe
(`ExternalPrinter::print`, the pipe branch of `ConsoleRawReader::select`)

Sequential model of the single-slot channel plus manual-reset wakeup event.
Primitive calls are logged in program order so the signalling order is part
of the verified statement.  Console writes are assumed to succeed here (the
write-failure behaviour is verified separately on `write_all`). -/

/-- Rust `char::encode_utf16`. -/
def encode_utf16_char (c : Char) : List Nat :=
  if c.toNat < 0x10000 then [c.toNat]
  else [0xD800 + (c.toNat - 0x10000) / 0x400, 0xDC00 + (c.toNat - 0x10000) % 0x400]

/-- `str::encode_utf16` as used by `write_to_console`. -/
def utf16_encode (s : String) : List Nat :=
  s.data.flatMap encode_utf16_char

inductive PipeAction where
  | writeOut (us : List Nat)
  | send (msg : String)
  | setEvent
  | resetEvent
  | recvOk (msg : String)
deriving DecidableEq, Repr

/-- Shared state of the async pipe and the output handle. -/
structure PipeState where
  /-- Content of the capacity-1 `sync_channel` slot. -/
  slot : Option String
  /-- The manual-reset wakeup event. -/
  wakeup : Bool
  /-- UTF-16 units written to the conout handle. -/
  out : List Nat
  /-- Whether the receiving half of the channel is still alive. -/
  receiver_alive : Bool
deriving DecidableEq, Repr

inductive PrintErr where
  /-- `send` failed because the receiver is gone
  (`io::ErrorKind::Other`). -/
  | receiverGone
  /-- The sequential model cannot take this step now: `send` on a full slot
  (the real call blocks until the reader drains the slot). -/
  | wouldBlock
  /-- `recv` returned an error (`io::ErrorKind::InvalidInput`). -/
  | invalidInput
deriving DecidableEq, Repr

/-- `ExternalPrinter::print`. -/
def print (raw_mode : Bool) (msg : String) (st : PipeState) :
    Except PrintErr Unit × PipeState × List PipeAction :=
  if ¬ raw_mode then
    -- write directly to stdout/stderr while not in raw mode
    (.ok (), { st with out := st.out ++ utf16_encode msg },
      [.writeOut (utf16_encode msg)])
  else if ¬ st.receiver_alive then (.error .receiverGone, st, [])
  else
    match st.slot with
    | some _ => (.error .wouldBlock, st, [])
    | none =>
      -- `self.sender.send(msg)` then `SetEvent(self.event)`
      (.ok (), { st with slot := some msg, wakeup := true },
        [.send msg, .setEvent])

/-- The `rc == WAIT_OBJECT_0 + 1` (pipe wakeup) branch of
`ConsoleRawReader::select`: reset the event, then receive one message. -/
def select_pipe (st : PipeState) : Except PrintErr Event × PipeState × List PipeAction :=
  let st := { st with wakeup := false }
  match st.slot with
  | some msg =>
    (.ok (.externalPrint msg), { st with slot := none },
      [.resetEvent, .recvOk msg])
  | none => (.error .invalidInput, st, [.resetEvent])

/-! ## Claim C1: escape-decoder emission and buffer reset -/

/-- C1 (counterexample): feeding the complete sequence Esc `'['` `'1'` `';'`
`'5'` `'C'` key-by-key, `on_key` returns `Some (KeyEvent(Right, CTRL))` on
the final key — but afterwards the decoder's buffer is NOT reset:
`is_processing()` is still `true`, refuting the claimed reset. -/
theorem C1_counterexample :
    (escape.EscapeCodeBuilder.feed .new
        [⟨.esc, .NONE⟩, ⟨.char '[', .NONE⟩, ⟨.char '1', .NONE⟩,
         ⟨.char ';', .NONE⟩, ⟨.char '5', .NONE⟩, ⟨.char 'C', .NONE⟩]).map
        (fun p => (p.1, p.2.is_processing))
      = some ([none, none, none, none, none, some ⟨.right, .CTRL⟩], true) := by
  decide

/-- C1 (amended): feeding the complete recognized sequence Esc `'['` `'1'`
`';'` `'5'` `'C'` key-by-key, `on_key` returns `None` five times and finally
`Some (KeyEvent(Right, CTRL))`; however, emitting a key (recognized or
`UnknownEscSeq`) never mutates the builder, so the buffer is NOT reset and
`is_processing()` remains `true` (a fresh decoder is created per `read_input`
call instead). -/
theorem C1_escape_decoder_emission :
    ((escape.EscapeCodeBuilder.feed .new
        [⟨.esc, .NONE⟩, ⟨.char '[', .NONE⟩, ⟨.char '1', .NONE⟩,
         ⟨.char ';', .NONE⟩, ⟨.char '5', .NONE⟩, ⟨.char 'C', .NONE⟩]).map
        (fun p => (p.1, p.2.is_processing))
      = some ([none, none, none, none, none, some ⟨.right, .CTRL⟩], true))
    ∧ ∀ (b : escape.EscapeCodeBuilder) (k e : KeyEvent)
        (b2 : escape.EscapeCodeBuilder),
        b.on_key k = some (some e, b2) → b2 = b := by
  refine ⟨by decide, ?_⟩
  intro b k e b2 h
  unfold escape.EscapeCodeBuilder.on_key at h
  split at h
  · split at h <;> simp_all
  · split at h
    · split at h
      · split at h
        · simp_all
        · split at h <;> simp_all
      · simp_all
    · simp_all

/-- C1 (witness): the amended theorem applied at concrete inputs — the
counterexample run itself, and the no-mutation-on-emission law at a
passthrough key. -/
theorem C1_escape_decoder_emission_witness :
    ((escape.EscapeCodeBuilder.feed .new
        [⟨.esc, .NONE⟩, ⟨.char '[', .NONE⟩, ⟨.char '1', .NONE⟩,
         ⟨.char ';', .NONE⟩, ⟨.char '5', .NONE⟩, ⟨.char 'C', .NONE⟩]).map
        (fun p => (p.1, p.2.is_processing))
      = some ([none, none, none, none, none, some ⟨.right, .CTRL⟩], true))
    ∧ escape.EscapeCodeBuilder.new = escape.EscapeCodeBuilder.new :=
  ⟨C1_escape_decoder_emission.1,
   C1_escape_decoder_emission.2 .new ⟨.char 'x', .NONE⟩ ⟨.char 'x', .NONE⟩ .new
     (by decide)⟩

/-! ## Claim C2: failed raw-mode enable -/

/-- C2 (counterexample): with both handles TTYs, color mode disabled and a
conout mode lacking WRAP_AT_EOL, a failing final `SetConsoleMode(conin, raw)`
makes `enable_raw_mode` return an error — yet the console OUTPUT mode has
already been changed (WRAP_AT_EOL was turned on), refuting "neither the
console input mode nor the console output mode has been changed". -/
theorem C2_counterexample :
    enable_raw_mode true true .disabled false false
        ⟨true, true, true, true, true, true, false⟩ ⟨0, 0, false⟩
      = .err false ⟨0, 2, true⟩
    ∧ (World.mk 0 2 true).conout_mode ≠ (World.mk 0 0 false).conout_mode := by
  decide

/-- The world carried by an `EnableOutcome`. -/
def EnableOutcome.world : EnableOutcome → World
  | .ok _ _ w => w
  | .err _ w => w
  | .panicked _ w => w

theorem enable_conout_setup_preserves_conin (cm : ColorMode) (e : Bool)
    (f : EnableFaults) (a : Bool) (w : World) :
    ((enable_conout_setup cm e f a w).1.world).conin_mode = w.conin_mode := by
  unfold enable_conout_setup
  dsimp only
  repeat' split
  all_goals rfl

/-- C2 (amended): if `enable_raw_mode` returns an error then no `ConsoleMode`
token is produced (the error outcome carries none) and the console INPUT mode
is unchanged from its original value; the console OUTPUT mode, however, may
already have been altered by the time a later step fails. -/
theorem C2_enable_raw_mode_error_input_mode_unchanged
    (ci co : Bool) (cm : ColorMode) (a e : Bool) (f : EnableFaults) (w : World)
    (ansi : Bool) (w2 : World)
    (h : enable_raw_mode ci co cm a e f w = .err ansi w2) :
    w2.conin_mode = w.conin_mode := by
  have hsetup := enable_conout_setup_preserves_conin cm e f a w
  rcases hs : enable_conout_setup cm e f a w with ⟨sout, vt⟩
  rw [hs] at hsetup
  unfold enable_raw_mode at h
  rw [hs] at h
  split at h
  · cases h; rfl
  · split at h
    · cases h; rfl
    · split at h
      · -- conout is a tty: case on the setup outcome
        cases sout <;> dsimp only at h
        · -- setup succeeded; the final SetConsoleMode(conin, raw) may fail
          split at h
          · cases h; exact hsetup
          · cases h
        · -- setup returned an error
          cases h; exact hsetup
        · -- setup panicked: not an `.err` result
          cases h
      · -- conout is not a tty
        split at h
        · cases h; rfl
        · cases h

/-- C2 (witness): the amended theorem applied at the counterexample input. -/
theorem C2_enable_raw_mode_error_input_mode_unchanged_witness :
    (World.mk 0 2 true).conin_mode = (World.mk 0 0 false).conin_mode :=
  C2_enable_raw_mode_error_input_mode_unchanged true true .disabled false false
    ⟨true, true, true, true, true, true, false⟩ ⟨0, 0, false⟩ false ⟨0, 2, true⟩
    (by decide)

/-! ## Claim C3: raw-mode disable and the shared flag -/

/-- C3 (counterexample): when restoring the original input mode fails,
`disable_raw_mode` returns the error — but the shared raw-mode flag is NOT
cleared: it is still `true` afterwards, refuting "the raw-mode flag is stored
false ... on every error path". -/
theorem C3_counterexample :
    disable_raw_mode ⟨7, some 5⟩ ⟨false, true, true⟩ ⟨1, 2, true⟩
        = (.error (), ⟨1, 2, true⟩)
    ∧ (World.mk 1 2 true).raw_mode = true :=
  ⟨rfl, rfl⟩

/-- C3 (amended): `disable_raw_mode` stores `false` into the shared raw-mode
flag only on the all-restores-succeeded path; on every error path (failed
input-mode restore, failed bracketed-paste-off write, failed output-mode
restore) the caller receives the error but the flag keeps its previous
value. -/
theorem C3_disable_raw_mode_flag
    (tok : ConsoleMode) (f : DisableFaults) (w : World) (r : Except Unit Unit)
    (w2 : World) (h : disable_raw_mode tok f w = (r, w2)) :
    (r = .ok () → w2.raw_mode = false)
    ∧ (r = .error () → w2.raw_mode = w.raw_mode) := by
  unfold disable_raw_mode at h
  split at h
  · cases h; exact ⟨fun hr => (nomatch hr), fun _ => rfl⟩
  · split at h
    · split at h
      · cases h; exact ⟨fun hr => (nomatch hr), fun _ => rfl⟩
      · split at h
        · cases h; exact ⟨fun hr => (nomatch hr), fun _ => rfl⟩
        · cases h; exact ⟨fun _ => rfl, fun hr => nomatch hr⟩
    · cases h; exact ⟨fun _ => rfl, fun hr => nomatch hr⟩

/-- C3 (witness): the amended theorem applied at the counterexample input. -/
theorem C3_disable_raw_mode_flag_witness :
    ((Except.error () : Except Unit Unit) = .ok () →
       (World.mk 1 2 true).raw_mode = false)
    ∧ ((Except.error () : Except Unit Unit) = .error () →
       (World.mk 1 2 true).raw_mode = (World.mk 1 2 true).raw_mode) :=
  C3_disable_raw_mode_flag ⟨7, some 5⟩ ⟨false, true, true⟩ ⟨1, 2, true⟩
    (.error ()) ⟨1, 2, true⟩ rfl

/-! ## Claim C8: AltGr modifier computation -/

theorem land_eq_self_iff (x m : Nat) :
    x &&& m = m ↔ ∀ i, m.testBit i = true → x.testBit i = true := by
  constructor
  · intro h i hi
    have hb := congrArg (fun n => n.testBit i) h
    simp only [Nat.testBit_land, hi, Bool.and_true] at hb
    exact hb
  · intro h
    apply Nat.eq_of_testBit_eq
    intro i
    rw [Nat.testBit_land]
    by_cases hm : m.testBit i = true
    · simp [hm, h i hm]
    · simp [Bool.not_eq_true] at hm
      simp [hm]

theorem land_eq_zero_iff (x m : Nat) :
    x &&& m = 0 ↔ ∀ i, m.testBit i = true → x.testBit i = false := by
  constructor
  · intro h i hi
    have hb := congrArg (fun n => n.testBit i) h
    simp only [Nat.testBit_land, hi, Bool.and_true, Nat.zero_testBit] at hb
    exact hb
  · intro h
    apply Nat.eq_of_testBit_eq
    intro i
    simp only [Nat.testBit_land, Nat.zero_testBit]
    by_cases hm : m.testBit i = true
    · simp [hm, h i hm]
    · simp [Bool.not_eq_true] at hm
      simp [hm]

theorem testBit_bound (m k : Nat) (hm : m < 2 ^ k) :
    ∀ i, m.testBit i = true → i < k := by
  intro i hi
  by_contra hc
  have hk : (2 : Nat) ^ k ≤ 2 ^ i := Nat.pow_le_pow_right (by norm_num) (by omega)
  rw [Nat.testBit_lt_two_pow (by omega)] at hi
  cases hi

theorem land9_iff (x : Nat) : x &&& 9 = 9 ↔ (x.testBit 0 = true ∧ x.testBit 3 = true) := by
  rw [land_eq_self_iff]
  constructor
  · intro h
    exact ⟨h 0 (by decide), h 3 (by decide)⟩
  · rintro ⟨h0, h3⟩ i hi
    have hlt := testBit_bound 9 4 (by norm_num) i hi
    interval_cases i <;> simp_all <;> exact absurd hi (by decide)

theorem land12_iff (x : Nat) :
    x &&& 12 = 0 ↔ (x.testBit 2 = false ∧ x.testBit 3 = false) := by
  rw [land_eq_zero_iff]
  constructor
  · intro h
    exact ⟨h 2 (by decide), h 3 (by decide)⟩
  · rintro ⟨h2, h3⟩ i hi
    have hlt := testBit_bound 12 4 (by norm_num) i hi
    interval_cases i <;> simp_all <;> exact absurd hi (by decide)

theorem land3_iff (x : Nat) :
    x &&& 3 = 0 ↔ (x.testBit 0 = false ∧ x.testBit 1 = false) := by
  rw [land_eq_zero_iff]
  constructor
  · intro h
    exact ⟨h 0 (by decide), h 1 (by decide)⟩
  · rintro ⟨h0, h1⟩ i hi
    have hlt := testBit_bound 3 4 (by norm_num) i hi
    interval_cases i <;> simp_all <;> exact absurd hi (by decide)

theorem land16_iff (x : Nat) : x &&& 16 = 0 ↔ x.testBit 4 = false := by
  rw [land_eq_zero_iff]
  constructor
  · intro h
    exact h 4 (by decide)
  · intro h4 i hi
    have hlt := testBit_bound 16 5 (by norm_num) i hi
    interval_cases i <;> simp_all <;> exact absurd hi (by decide)

/-- C8: bit 3 is LEFT_CTRL, bit 2 RIGHT_CTRL, bit 1 LEFT_ALT, bit 0
RIGHT_ALT, bit 4 SHIFT.  When both LEFT_CTRL and RIGHT_ALT are set (AltGr),
the modifier set computed by `read_input` contains neither CTRL nor ALT;
otherwise CTRL is set exactly when either CTRL bit is, and ALT exactly when
either ALT bit is; SHIFT always comes from its own bit.  Concretely, a
key-down record with LEFT_CTRL|RIGHT_ALT (0x9) and scalar 'ê' yields
`KeyEvent(Char('ê'), NONE)` from `read_input`. -/
theorem C8_altgr_modifiers (st : Nat) :
    ((st.testBit 3 = true ∧ st.testBit 0 = true) →
      (mods_of_state st).ctrl = false ∧ (mods_of_state st).alt = false)
    ∧ (¬(st.testBit 3 = true ∧ st.testBit 0 = true) →
        (mods_of_state st).ctrl = (st.testBit 3 || st.testBit 2)
      ∧ (mods_of_state st).alt = (st.testBit 1 || st.testBit 0))
    ∧ (mods_of_state st).shift = st.testBit 4
    ∧ read_input [.key true 0 0x9 0xEA] 0xFFFFFFFF false
        = .ok (⟨.char 'ê', .NONE⟩, []) := by
  have e9 : LEFT_CTRL_PRESSED ||| RIGHT_ALT_PRESSED = 9 := by decide
  have e12 : LEFT_CTRL_PRESSED ||| RIGHT_CTRL_PRESSED = 12 := by decide
  have e3 : LEFT_ALT_PRESSED ||| RIGHT_ALT_PRESSED = 3 := by decide
  have e16 : SHIFT_PRESSED = 16 := by decide
  have hA := land9_iff st
  have hC := land12_iff st
  have hL := land3_iff st
  have hS := land16_iff st
  unfold mods_of_state
  rw [e9, e12, e3, e16]
  dsimp only
  refine ⟨?_, ?_, ?_, by decide⟩
  · rintro ⟨h3, h0⟩
    have hq : (st &&& 9 == 9) = true := by
      rw [beq_iff_eq]
      exact hA.mpr ⟨h0, h3⟩
    simp [hq]
  · intro hna
    have hq : (st &&& 9 == 9) = false := by
      rw [beq_eq_false_iff_ne]
      intro he
      exact hna ⟨(hA.mp he).2, (hA.mp he).1⟩
    constructor
    · simp only [hq, Bool.not_false, Bool.true_and]
      rcases h2 : st.testBit 2 <;> rcases h3 : st.testBit 3 <;>
        simp_all [bne_iff_ne]
    · simp only [hq, Bool.not_false, Bool.true_and]
      rcases h0 : st.testBit 0 <;> rcases h1 : st.testBit 1 <;>
        simp_all [bne_iff_ne]
  · rcases h4 : st.testBit 4 <;> simp_all [bne_iff_ne]

/-- C8 (witness): the theorem applied at concrete control-key states —
AltGr (LEFT_CTRL|RIGHT_ALT = 0x9) suppresses CTRL and ALT; LEFT_CTRL alone
(0x8) yields CTRL. -/
theorem C8_altgr_modifiers_witness :
    ((mods_of_state 9).ctrl = false ∧ (mods_of_state 9).alt = false)
    ∧ ((mods_of_state 8).ctrl = ((8 : Nat).testBit 3 || (8 : Nat).testBit 2)
      ∧ (mods_of_state 8).alt = ((8 : Nat).testBit 1 || (8 : Nat).testBit 0)) :=
  ⟨(C8_altgr_modifiers 9).1 (by decide),
   (C8_altgr_modifiers 8).2.1 (by decide)⟩

/-! ## Claim C9: external printer and pipe wakeup protocol -/

/-- C9: `print` writes the UTF-16 encoding of the message directly to the
output handle (and puts nothing in the channel) when the raw-mode flag is
false; when it is true it queues the message in the capacity-1 channel and
only then signals the wakeup (the logged call order is send, then SetEvent);
it fails when the receiver is gone (and then signals nothing); and the
reader's pipe branch resets the wakeup and receives one message before
returning `ExternalPrint`. -/
theorem C9_external_printer (msg : String) (st : PipeState) :
    (print false msg st
        = (.ok (), { st with out := st.out ++ utf16_encode msg },
           [.writeOut (utf16_encode msg)])
      ∧ (print false msg st).2.1.slot = st.slot)
    ∧ (st.receiver_alive = true → st.slot = none →
        print true msg st
          = (.ok (), { st with slot := some msg, wakeup := true },
             [.send msg, .setEvent]))
    ∧ (st.receiver_alive = false →
        print true msg st = (.error .receiverGone, st, []))
    ∧ (∀ m, st.slot = some m →
        select_pipe st
          = (.ok (.externalPrint m), { st with wakeup := false, slot := none },
             [.resetEvent, .recvOk m])) := by
  refine ⟨⟨rfl, rfl⟩, ?_, ?_, ?_⟩
  · intro halive hslot
    unfold print
    simp [halive, hslot]
  · intro halive
    unfold print
    simp [halive]
  · intro m hslot
    unfold select_pipe
    simp [hslot]

/-- C9 (witness): the theorem applied at a concrete printer state. -/
theorem C9_external_printer_witness :
    print true "x" ⟨none, false, [], true⟩
      = (.ok (), ⟨some "x", true, [], true⟩, [.send "x", .setEvent])
    ∧ select_pipe ⟨some "x", true, [], true⟩
      = (.ok (.externalPrint "x"), ⟨none, false, [], true⟩,
         [.resetEvent, .recvOk "x"]) :=
  ⟨(C9_external_printer "x" ⟨none, false, [], true⟩).2.1 rfl rfl,
   (C9_external_printer "x" ⟨some "x", true, [], true⟩).2.2.2 "x" rfl⟩

/-! ## Claim C6: bracketed-paste accumulation and CR/LF normalization -/

theorem not_mem_replace_cr (l : List Char) : '\r' ∉ escape.replace_cr l := by
  intro h
  rcases List.mem_map.mp h with ⟨a, _, ha⟩
  by_cases hc : a = '\r'
  · rw [if_pos hc] at ha
    exact absurd ha (by decide)
  · rw [if_neg hc] at ha
    exact hc ha

theorem read_pasted_text_no_cr :
    ∀ (ks : List KeyEvent) (buf res : List Char) (rest : List KeyEvent),
      escape.read_pasted_text ks buf = some (res, rest) → '\r' ∉ res := by
  intro ks
  induction ks with
  | nil =>
    intro buf res rest h
    cases h
  | cons k ks ih =>
    intro buf res rest h
    unfold escape.read_pasted_text at h
    split at h
    · cases h
      exact not_mem_replace_cr _
    · split at h
      · split at h
        · exact ih _ _ _ h
        · split at h
          · exact ih _ _ _ h
          · split at h
            · exact ih _ _ _ h
            · split at h
              · exact ih _ _ _ h
              · exact ih _ _ _ h
      · exact ih _ _ _ h

/-- C6: in bracketed-paste mode `read_pasted_text` consumes keys until
`BracketedPasteEnd`; unmodified `Char` keys append; Ctrl-I/Ctrl-M/Ctrl-J
append TAB/CR/LF; every other key is ignored; and on end the accumulated
buffer is returned with each CRLF pair and then every remaining lone CR
normalized to LF — in particular no CR survives in the result. -/
theorem C6_read_pasted_text :
    (∀ (ks : List KeyEvent) (buf : List Char) (m : Modifiers),
      escape.read_pasted_text (⟨.bracketedPasteEnd, m⟩ :: ks) buf
        = some (escape.replace_cr (escape.replace_crlf buf), ks))
    ∧ (∀ (ks : List KeyEvent) (buf : List Char) (ch : Char),
      escape.read_pasted_text (⟨.char ch, .NONE⟩ :: ks) buf
        = escape.read_pasted_text ks (buf ++ [ch]))
    ∧ (escape.read_pasted_text (⟨.char 'I', .CTRL⟩ :: []) []
        = escape.read_pasted_text [] ['\t']
      ∧ escape.read_pasted_text (⟨.char 'M', .CTRL⟩ :: []) []
        = escape.read_pasted_text [] ['\r']
      ∧ escape.read_pasted_text (⟨.char 'J', .CTRL⟩ :: []) []
        = escape.read_pasted_text [] ['\n'])
    ∧ (∀ (ks : List KeyEvent) (buf : List Char) (k : KeyEvent),
      (∀ ch, k.code ≠ .char ch) → k.code ≠ .bracketedPasteEnd →
      escape.read_pasted_text (k :: ks) buf = escape.read_pasted_text ks buf)
    ∧ (∀ (ks : List KeyEvent) (buf res : List Char) (rest : List KeyEvent),
      escape.read_pasted_text ks buf = some (res, rest) → '\r' ∉ res)
    ∧ escape.read_pasted_text
        [⟨.char 'a', .NONE⟩, ⟨.char 'M', .CTRL⟩, ⟨.char 'J', .CTRL⟩,
         ⟨.char 'b', .NONE⟩, ⟨.char 'M', .CTRL⟩, ⟨.char 'c', .NONE⟩,
         ⟨.bracketedPasteEnd, .NONE⟩] []
        = some (['a', '\n', 'b', '\n', 'c'], []) := by
  refine ⟨fun ks buf m => rfl, fun ks buf ch => rfl, ⟨rfl, rfl, rfl⟩,
    ?_, read_pasted_text_no_cr, by decide⟩
  intro ks buf k hnc hne
  rcases k with ⟨code, m⟩
  cases code
  case char ch => exact absurd rfl (hnc ch)
  case bracketedPasteEnd => exact absurd rfl hne
  all_goals rfl

/-- C6 (witness): the ignored-key equation applied at a concrete key, and the
no-CR consequence at a concrete run. -/
theorem C6_read_pasted_text_witness :
    escape.read_pasted_text [⟨.left, .NONE⟩, ⟨.bracketedPasteEnd, .NONE⟩] ['x']
      = escape.read_pasted_text [⟨.bracketedPasteEnd, .NONE⟩] ['x']
    ∧ '\r' ∉ (['a', '\n', 'b', '\n', 'c'] : List Char) :=
  ⟨C6_read_pasted_text.2.2.2.1 [⟨.bracketedPasteEnd, .NONE⟩] ['x'] ⟨.left, .NONE⟩
      (fun ch h => by cases h) (fun h => by cases h),
   C6_read_pasted_text.2.2.2.2.1
      [⟨.char 'a', .NONE⟩, ⟨.char 'M', .CTRL⟩, ⟨.char 'J', .CTRL⟩,
       ⟨.char 'b', .NONE⟩, ⟨.char 'M', .CTRL⟩, ⟨.char 'c', .NONE⟩,
       ⟨.bracketedPasteEnd, .NONE⟩] [] ['a', '\n', 'b', '\n', 'c'] []
      (by decide)⟩

/-! ## Claim C5: manual soft wrap and position calculation -/

namespace ConsoleRenderer

theorem wrap_at_eol_loop_append (cols : Nat) :
    ∀ (s : List Gc) (col : Nat) (b : List Gc),
      wrap_at_eol_loop cols s col b
        = (b ++ (wrap_at_eol_loop cols s col []).1,
           (wrap_at_eol_loop cols s col []).2) := by
  intro s
  induction s with
  | nil =>
    intro col b
    simp [wrap_at_eol_loop]
  | cons g s ih =>
    intro col b
    cases g with
    | nl =>
      simp only [wrap_at_eol_loop]
      rw [ih 0 (b ++ [Gc.nl]), ih 0 ([] ++ [Gc.nl])]
      simp
    | cl w =>
      simp only [wrap_at_eol_loop]
      try dsimp only
      by_cases h : col + w > cols
      · rw [if_pos h, if_pos h]
        rw [ih w (b ++ [Gc.nl, Gc.cl w]), ih w ([] ++ [Gc.nl, Gc.cl w])]
        simp
      · rw [if_neg h, if_neg h]
        rw [ih (col + w) (b ++ [Gc.cl w]), ih (col + w) ([] ++ [Gc.cl w])]
        simp

theorem count_nl_append (a b : List Gc) :
    count_nl (a ++ b) = count_nl a + count_nl b := by
  simp [count_nl, List.filter_append]

theorem calculate_position_loop_spec (cols : Nat) :
    ∀ (s : List Gc) (col row : Nat),
      calculate_position_loop cols s ⟨row, col⟩
        = ⟨row + count_nl (wrap_at_eol_loop cols s col []).1,
           (wrap_at_eol_loop cols s col []).2⟩ := by
  intro s
  induction s with
  | nil =>
    intro col row
    simp [calculate_position_loop, wrap_at_eol_loop, count_nl]
  | cons g s ih =>
    intro col row
    cases g with
    | nl =>
      simp only [calculate_position_loop, wrap_at_eol_loop]
      rw [ih 0 (row + 1), wrap_at_eol_loop_append cols s 0 ([] ++ [Gc.nl])]
      simp [count_nl_append, count_nl]
      omega
    | cl w =>
      simp only [calculate_position_loop, wrap_at_eol_loop]
      try dsimp only
      by_cases h : col + w > cols
      · rw [if_pos h, if_pos h]
        rw [ih w (row + 1), wrap_at_eol_loop_append cols s w ([] ++ [Gc.nl, Gc.cl w])]
        simp [count_nl_append, count_nl]
        omega
      · rw [if_neg h, if_neg h]
        rw [ih (col + w) row, wrap_at_eol_loop_append cols s (col + w) ([] ++ [Gc.cl w])]
        simp [count_nl_append, count_nl]

end ConsoleRenderer

/-- C5: the grapheme loop of `wrap_at_eol` resets the column on a literal
newline cluster, inserts a `'\n'` before a cluster exactly when the column
plus the cluster's width exceeds the column count (the column becoming that
width), appends the cluster, and after the loop appends a final `'\n'` and
resets to 0 exactly when the column equals the column count, returning the
final column; `calculate_position` applies identical wrapping rules: starting
from `(row, col)` it returns the column `wrap_at_eol` would return and
advances the row by exactly the number of newlines in the buffer
`wrap_at_eol` builds. -/
theorem C5_wrap_and_position (cols : Nat) :
    (∀ (s : List Gc) (col : Nat) (b : List Gc),
      ConsoleRenderer.wrap_at_eol_loop cols (.nl :: s) col b
        = ConsoleRenderer.wrap_at_eol_loop cols s 0 (b ++ [.nl]))
    ∧ (∀ (s : List Gc) (col w : Nat) (b : List Gc), col + w > cols →
      ConsoleRenderer.wrap_at_eol_loop cols (.cl w :: s) col b
        = ConsoleRenderer.wrap_at_eol_loop cols s w (b ++ [.nl, .cl w]))
    ∧ (∀ (s : List Gc) (col w : Nat) (b : List Gc), ¬ col + w > cols →
      ConsoleRenderer.wrap_at_eol_loop cols (.cl w :: s) col b
        = ConsoleRenderer.wrap_at_eol_loop cols s (col + w) (b ++ [.cl w]))
    ∧ (∀ (s : List Gc) (col : Nat),
      ((ConsoleRenderer.wrap_at_eol_loop cols s col []).2 = cols →
        ConsoleRenderer.wrap_at_eol cols s col
          = ((ConsoleRenderer.wrap_at_eol_loop cols s col []).1 ++ [.nl], 0))
      ∧ ((ConsoleRenderer.wrap_at_eol_loop cols s col []).2 ≠ cols →
        ConsoleRenderer.wrap_at_eol cols s col
          = ConsoleRenderer.wrap_at_eol_loop cols s col []))
    ∧ (∀ (s : List Gc) (col row : Nat),
      ConsoleRenderer.calculate_position cols s ⟨row, col⟩
        = ⟨row + ConsoleRenderer.count_nl (ConsoleRenderer.wrap_at_eol cols s col).1,
           (ConsoleRenderer.wrap_at_eol cols s col).2⟩) := by
  refine ⟨fun s col b => rfl, ?_, ?_, ?_, ?_⟩
  · intro s col w b h
    simp only [ConsoleRenderer.wrap_at_eol_loop]
    try dsimp only
    rw [if_pos h]
  · intro s col w b h
    simp only [ConsoleRenderer.wrap_at_eol_loop]
    try dsimp only
    rw [if_neg h]
  · intro s col
    constructor
    · intro h
      unfold ConsoleRenderer.wrap_at_eol
      rw [if_pos h]
    · intro h
      unfold ConsoleRenderer.wrap_at_eol
      rw [if_neg h]
  · intro s col row
    unfold ConsoleRenderer.calculate_position ConsoleRenderer.wrap_at_eol
    rw [ConsoleRenderer.calculate_position_loop_spec cols s col row]
    try dsimp only
    by_cases h : (ConsoleRenderer.wrap_at_eol_loop cols s col []).2 = cols
    · rw [if_pos h, if_pos h]
      simp [ConsoleRenderer.count_nl_append, ConsoleRenderer.count_nl]
      omega
    · rw [if_neg h, if_neg h]

/-- C5 (witness): the spec's soft-wrap scenario — column width 4 and five
width-1 clusters give position `(1, 1)` with exactly one inserted newline
between the 4th and 5th cluster — derived by applying the theorem, plus its
direct evaluation. -/
theorem C5_wrap_and_position_witness :
    ConsoleRenderer.calculate_position 4 [.cl 1, .cl 1, .cl 1, .cl 1, .cl 1] ⟨0, 0⟩
      = ⟨0 + ConsoleRenderer.count_nl
            (ConsoleRenderer.wrap_at_eol 4 [.cl 1, .cl 1, .cl 1, .cl 1, .cl 1] 0).1,
         (ConsoleRenderer.wrap_at_eol 4 [.cl 1, .cl 1, .cl 1, .cl 1, .cl 1] 0).2⟩
    ∧ ConsoleRenderer.wrap_at_eol 4 [.cl 1, .cl 1, .cl 1, .cl 1, .cl 1] 0
      = ([.cl 1, .cl 1, .cl 1, .cl 1, .nl, .cl 1], 1)
    ∧ ConsoleRenderer.calculate_position 4 [.cl 1, .cl 1, .cl 1, .cl 1, .cl 1] ⟨0, 0⟩
      = ⟨1, 1⟩
    ∧ ConsoleRenderer.wrap_at_eol_loop 4 [.cl 1] 4 []
      = ConsoleRenderer.wrap_at_eol_loop 4 [] 1 ([] ++ [.nl, .cl 1]) :=
  ⟨(C5_wrap_and_position 4).2.2.2.2 [.cl 1, .cl 1, .cl 1, .cl 1, .cl 1] 0 0,
   by decide, by decide,
   (C5_wrap_and_position 4).2.1 [] 4 1 [] (by norm_num)⟩

/-! ## Claim C4: surrogate-safe UTF-16 chunking -/

theorem write_slice_spec (data : List Nat) :
    (write_slice data).length ≤ 8192
    ∧ (data.length < 8192 → write_slice data = data)
    ∧ (8192 ≤ data.length →
        ((write_slice data).length = 8191
          ↔ is_high_surrogate (data.getD 8191 0) = true)
      ∧ (is_high_surrogate (data.getD 8191 0) = true →
          write_slice data = data.take 8191)
      ∧ (is_high_surrogate (data.getD 8191 0) = false →
          write_slice data = data.take 8192)) := by
  unfold write_slice
  by_cases hlen : data.length < 8192
  · rw [if_pos hlen]
    exact ⟨by omega, fun _ => rfl, fun hc => absurd hc (by omega)⟩
  · rw [if_neg hlen]
    by_cases hh : is_high_surrogate (data.getD 8191 0) = true
    · rw [if_pos hh]
      have hl : (data.take 8191).length = 8191 := by
        simp [List.length_take]
        omega
      refine ⟨by omega, fun hc => absurd hc hlen, fun _ => ⟨?_, fun _ => rfl, ?_⟩⟩
      · rw [hl, hh]
        simp
      · intro hc
        rw [hh] at hc
        cases hc
    · rw [if_neg hh]
      have hl : (data.take 8192).length = 8192 := by
        simp [List.length_take]
        omega
      simp only [Bool.not_eq_true] at hh
      refine ⟨by omega, fun hc => absurd hc hlen, fun _ => ⟨?_, ?_, fun _ => rfl⟩⟩
      · rw [hl, hh]
        simp
      · intro hc
        rw [hh] at hc
        cases hc

theorem not_high_and_low (u : Nat) :
    ¬(is_high_surrogate u = true ∧ is_low_surrogate u = true) := by
  rintro ⟨hh, hl⟩
  unfold is_high_surrogate at hh
  unfold is_low_surrogate at hl
  rw [decide_eq_true_iff] at hh hl
  omega

theorem write_slice_no_split (data : List Nat)
    (hlt : (write_slice data).length < data.length) :
    ¬(is_high_surrogate (data.getD ((write_slice data).length - 1) 0) = true
      ∧ is_low_surrogate (data.getD (write_slice data).length 0) = true) := by
  rcases write_slice_spec data with ⟨_, hshort, hlong⟩
  by_cases hlen : data.length < 8192
  · rw [hshort hlen] at hlt
    omega
  · rcases hlong (by omega) with ⟨hiff, hhi, hlo⟩
    by_cases hh : is_high_surrogate (data.getD 8191 0) = true
    · -- the chunk was cut at 8191; data[8191] is a high surrogate, hence not low
      rw [hhi hh]
      have hl8191 : (data.take 8191).length = 8191 := by
        simp [List.length_take]
        omega
      rw [hl8191]
      rintro ⟨_, hlow⟩
      exact not_high_and_low (data.getD 8191 0) ⟨hh, hlow⟩
    · -- the chunk was cut at 8192; data[8191] (its last unit) is not high
      simp only [Bool.not_eq_true] at hh
      rw [hlo hh]
      have hl8192 : (data.take 8192).length = 8192 := by
        simp [List.length_take]
        omega
      rw [hl8192]
      rintro ⟨hhigh, _⟩
      rw [show (8192 - 1 : Nat) = 8191 from rfl, hh] at hhigh
      cases hhigh

theorem write_all_log (oracle : Nat → WriteResp) :
    ∀ (n i : Nat) (data : List Nat), data.length ≤ n →
      ∀ p ∈ (write_all oracle i data).2, p.1 = write_slice p.2 := by
  intro n
  induction n with
  | zero =>
    intro i data hlen p hp
    have hnil : data = [] := List.eq_nil_of_length_eq_zero (by omega)
    subst hnil
    rw [write_all] at hp
    simp at hp
  | succ n ih =>
    intro i data hlen p hp
    rw [write_all] at hp
    by_cases hd : data = []
    · rw [dif_pos hd] at hp
      simp at hp
    · rw [dif_neg hd] at hp
      split at hp
      · -- WriteConsoleW failed outright
        simp only [List.mem_singleton] at hp
        subst hp
        rfl
      · -- WriteConsoleW succeeded, reporting `written`
        split at hp
        · simp only [List.mem_singleton] at hp
          subst hp
          rfl
        · rename_i written _ hw
          simp only [List.mem_cons] at hp
          rcases hp with hp | hp
          · subst hp
            rfl
          · refine ih (i + 1) (data.drop written) ?_ p hp
            rw [List.length_drop]
            have hpos : 1 ≤ data.length := by
              rcases data with _ | _
              · exact absurd rfl hd
              · simp
            omega

/-- C4: every chunk `write_all` hands to `WriteConsoleW` is the `write_slice`
of the data remaining at that call; such a chunk holds at most 8192 units, is
the whole remaining data when that is shorter than 8192 units, and when at
least 8192 units remain it is shortened to 8191 units exactly when the
8192nd unit is a high surrogate — so no chunk boundary ever falls between a
high surrogate and its low surrogate; and a write that reports zero units
written makes `write_all` fail with a WriteZero error. -/
theorem C4_write_all_chunking (oracle : Nat → WriteResp) (i : Nat)
    (data : List Nat) :
    (∀ p ∈ (write_all oracle i data).2, p.1 = write_slice p.2)
    ∧ (∀ d : List Nat,
        (write_slice d).length ≤ 8192
      ∧ (d.length < 8192 → write_slice d = d)
      ∧ (8192 ≤ d.length →
          ((write_slice d).length = 8191
            ↔ is_high_surrogate (d.getD 8191 0) = true))
      ∧ ((write_slice d).length < d.length →
          ¬(is_high_surrogate (d.getD ((write_slice d).length - 1) 0) = true
            ∧ is_low_surrogate (d.getD (write_slice d).length 0) = true)))
    ∧ (data ≠ [] → oracle i = .ok 0 →
        (write_all oracle i data).1 = .error .writeZero) := by
  refine ⟨write_all_log oracle data.length i data le_rfl, ?_, ?_⟩
  · intro d
    rcases write_slice_spec d with ⟨h1, h2, h3⟩
    exact ⟨h1, h2, fun hl => (h3 hl).1, write_slice_no_split d⟩
  · intro hd horc
    rw [write_all, dif_neg hd, horc]
    rfl

/-- C4 (witness): the theorem applied at a concrete oracle and data. -/
theorem C4_write_all_chunking_witness :
    (write_all (fun _ => .ok 0) 0 [65]).1 = .error .writeZero :=
  (C4_write_all_chunking (fun _ => .ok 0) 0 [65]).2.2 (by decide) rfl

/-! ## Claim C7: UTF-16 surrogate pair round trip -/

/-- C7: for every scalar `c` whose UTF-16 encoding is a surrogate pair
(high `0xD800 + (c - 0x10000) / 0x400`, low `0xDC00 + (c - 0x10000) % 0x400`),
delivering a key-down record carrying the high unit followed by one carrying
the low unit yields exactly one `KeyEvent(Char(c), mods)` — the first record
produces no event (the high surrogate is stashed and the loop continues) and
both records are consumed; and a record whose UTF-16 unit decodes to no
scalar (a lone low surrogate) fails with the Eof error. -/
theorem C7_surrogate_roundtrip (c st mc : Nat)
    (h1 : 0x10000 ≤ c) (h2 : c < 0x110000) (hmc : 2 ≤ mc) :
    read_input
        [.key true 0 st (0xD800 + (c - 0x10000) / 0x400),
         .key true 0 st (0xDC00 + (c - 0x10000) % 0x400)] mc false
      = .ok (⟨.char (Char.ofNat c), mods_of_state st⟩, [])
    ∧ (∀ u, 0xDC00 ≤ u → u < 0xE000 →
        read_input [.key true 0 st u] mc false = .error .eof) := by
  have hvk : ∀ m, vk_to_key_code 0 m = none := fun m => rfl
  have hq : (c - 0x10000) / 0x400 < 0x400 := by omega
  constructor
  · rw [read_input, read_input_loop, if_neg (by omega : ¬ 0 ≥ mc)]
    rw [if_neg (by simp : ¬ (true = false ∧ (0 : Nat) ≠ VK_MENU))]
    rw [show key_of_record 0 (mods_of_state st) (0xD800 + (c - 0x10000) / 0x400) 0
          = .cont (0xD800 + (c - 0x10000) / 0x400) by
        rw [key_of_record, hvk]
        rw [if_neg (by omega), if_neg (by omega), if_pos (by omega)]]
    dsimp only
    rw [read_input_loop, if_neg (by omega : ¬ 0 + 1 ≥ mc)]
    rw [if_neg (by simp : ¬ (true = false ∧ (0 : Nat) ≠ VK_MENU))]
    rw [show key_of_record 0 (mods_of_state st) (0xDC00 + (c - 0x10000) % 0x400)
            (0xD800 + (c - 0x10000) / 0x400)
          = .key (key_event_new (Char.ofNat c) (mods_of_state st)) by
        rw [key_of_record, hvk]
        rw [if_neg (by omega), if_neg (by omega), if_neg (by omega)]
        rw [if_neg (by omega : ¬ (0xD800 + (c - 0x10000) / 0x400 = 0))]
        rw [show decode_utf16_pair (0xD800 + (c - 0x10000) / 0x400)
              (0xDC00 + (c - 0x10000) % 0x400) = some (Char.ofNat c) by
            rw [decode_utf16_pair, if_pos (by omega)]
            rw [show 0x10000 + ((0xD800 + (c - 0x10000) / 0x400) - 0xD800) * 0x400
                  + ((0xDC00 + (c - 0x10000) % 0x400) - 0xDC00) = c by omega]]]
    simp [key_event_new]
  · intro u hu1 hu2
    rw [read_input, read_input_loop, if_neg (by omega : ¬ 0 ≥ mc)]
    rw [if_neg (by simp : ¬ (true = false ∧ (0 : Nat) ≠ VK_MENU))]
    rw [show key_of_record 0 (mods_of_state st) u 0 = .err .eof by
        rw [key_of_record, hvk]
        rw [if_neg (by omega), if_neg (by omega), if_neg (by omega)]
        rw [if_pos rfl]
        rw [show decode_utf16_one u = none by
            rw [decode_utf16_one, if_pos (by omega)]]]

/-- C7 (witness): the theorem applied at U+1F600 (whose pair is
0xD83D, 0xDE00) with no modifiers. -/
theorem C7_surrogate_roundtrip_witness :
    read_input
        [.key true 0 0 (0xD800 + (0x1F600 - 0x10000) / 0x400),
         .key true 0 0 (0xDC00 + (0x1F600 - 0x10000) % 0x400)] 0xFFFFFFFF false
      = .ok (⟨.char (Char.ofNat 0x1F600), mods_of_state 0⟩, [])
    ∧ read_input [.key true 0 0 0xDE00] 0xFFFFFFFF false = .error .eof :=
  ⟨(C7_surrogate_roundtrip 0x1F600 0 0xFFFFFFFF (by norm_num) (by norm_num)
      (by norm_num)).1,
   (C7_surrogate_roundtrip 0x1F600 0 0xFFFFFFFF (by norm_num) (by norm_num)
      (by norm_num)).2 0xDE00 (by norm_num) (by norm_num)⟩

/-! ## Claim C10: window resize is an error, never a key -/

theorem read_input_loop_consumed (mc : Nat) (ebp : Bool) :
    ∀ (recs : List InputRecord) (total surr : Nat)
      (esc : escape.EscapeCodeBuilder) (k : KeyEvent) (rest : List InputRecord),
      read_input_loop mc ebp recs total surr esc = .ok (k, rest) →
      ∃ pre, recs = pre ++ rest ∧ InputRecord.windowBufferSize ∉ pre := by
  intro recs
  induction recs with
  | nil =>
    intro total surr esc k rest h
    rw [read_input_loop] at h
    split at h
    · cases h
      exact ⟨[], rfl, by simp⟩
    · cases h
  | cons r recs ih =>
    intro total surr esc k rest h
    cases r with
    | windowBufferSize =>
      rw [read_input_loop] at h
      split at h
      · cases h
        exact ⟨[], rfl, by simp⟩
      · cases h
    | other =>
      rw [read_input_loop] at h
      split at h
      · cases h
        exact ⟨[], rfl, by simp⟩
      · rcases ih _ _ _ _ _ h with ⟨pre, hpre, hmem⟩
        exact ⟨.other :: pre, by rw [hpre]; rfl, by simp [hmem]⟩
    | key keyDown vk ctrlState utf16 =>
      rw [read_input_loop] at h
      split at h
      · cases h
        exact ⟨[], rfl, by simp⟩
      · split at h
        · rcases ih _ _ _ _ _ h with ⟨pre, hpre, hmem⟩
          exact ⟨.key keyDown vk ctrlState utf16 :: pre, by rw [hpre]; rfl,
            by simp [hmem]⟩
        · split at h
          · rcases ih _ _ _ _ _ h with ⟨pre, hpre, hmem⟩
            exact ⟨.key keyDown vk ctrlState utf16 :: pre, by rw [hpre]; rfl,
              by simp [hmem]⟩
          · cases h
          · split at h
            · split at h
              · split at h
                · cases h
                · cases h
                  exact ⟨[.key keyDown vk ctrlState utf16], rfl, by simp⟩
                · rcases ih _ _ _ _ _ h with ⟨pre, hpre, hmem⟩
                  exact ⟨.key keyDown vk ctrlState utf16 :: pre, by rw [hpre]; rfl,
                    by simp [hmem]⟩
              · cases h
                exact ⟨[.key keyDown vk ctrlState utf16], rfl, by simp⟩
            · cases h
              exact ⟨[.key keyDown vk ctrlState utf16], rfl, by simp⟩

/-- C10: when `read_input` observes a window-buffer-size-change record it
fails with the WindowResized error; and whenever `read_input` returns a key,
none of the records it consumed was a window-buffer-size-change record, so
WindowResized is never delivered as a key press. -/
theorem C10_window_resized (recs : List InputRecord) (mc : Nat) (ebp : Bool) :
    (0 < mc → ∀ rest, read_input (.windowBufferSize :: rest) mc ebp
        = .error .windowResized)
    ∧ (∀ (k : KeyEvent) (rest : List InputRecord),
        read_input recs mc ebp = .ok (k, rest) →
        ∃ pre, recs = pre ++ rest ∧ InputRecord.windowBufferSize ∉ pre) := by
  constructor
  · intro hmc rest
    rw [read_input, read_input_loop, if_neg (by omega : ¬ 0 ≥ mc)]
  · intro k rest h
    exact read_input_loop_consumed mc ebp recs 0 0 .new k rest h

/-- C10 (witness): the theorem applied at concrete inputs — a resize record
errors with WindowResized, and a run that returns a key consumed no resize
record. -/
theorem C10_window_resized_witness :
    read_input [.windowBufferSize] 1 false = .error .windowResized
    ∧ ∃ pre, [InputRecord.key true 0 0 65] = pre ++ ([] : List InputRecord)
        ∧ InputRecord.windowBufferSize ∉ pre :=
  ⟨(C10_window_resized [] 1 false).1 (by norm_num) [],
   (C10_window_resized [.key true 0 0 65] 2 false).2 ⟨.char 'A', .NONE⟩ []
     (by decide)⟩

end Rustyline
